import Mathlib

/-!
Shallow embedding of the FocusLock webcam-control application
(src/App.tsx, src/types.ts, src/services/geminiService.ts).

The embedding mirrors the source: JavaScript falsy-coalescing chains
(`a || b || c`, where both `undefined` and `0` / the empty string are
falsy) become explicit `truthy` tests on `Option` values; the
asynchronous stream lifecycle of `startStream` becomes a step relation
on an explicit state, where the environment chooses when each in-flight
`getUserMedia` request resolves.
-/

/-- Focus mode variants, from `CameraSettings.focusMode` in src/types.ts. -/
inductive FocusMode
  | continuous
  | manual
deriving Repr, DecidableEq

/-- The in-memory settings model, from `CameraSettings` in src/types.ts.
Numeric fields are rationals (slider steps such as 0.01 and 0.1 occur). -/
structure CameraSettings where
  focusMode : FocusMode
  focusDistance : ℚ
  zoom : ℚ
  brightness : ℚ
  contrast : ℚ
deriving Repr, DecidableEq

/-- The initial settings state created at session start (src/App.tsx,
`useState<CameraSettings>` initializer). -/
def initialSettings : CameraSettings :=
  { focusMode := FocusMode.continuous
    focusDistance := 0
    zoom := 1
    brightness := 100
    contrast := 100 }

/-- A hardware-advertised range for one tunable parameter, from
`CameraCapabilities` in src/types.ts. -/
structure CapabilityRange where
  min : ℚ
  max : ℚ
  step : ℚ
deriving Repr, DecidableEq

/-- The capability set read from `track.getCapabilities()`, from
`CameraCapabilities` in src/types.ts; every field is optional. -/
structure CameraCapabilities where
  focusMode : Option (List String) := none
  focusDistance : Option CapabilityRange := none
  zoom : Option CapabilityRange := none
  brightness : Option CapabilityRange := none
  contrast : Option CapabilityRange := none
  saturation : Option CapabilityRange := none
  sharpness : Option CapabilityRange := none
deriving Repr, DecidableEq

/-- The partial current values read from `track.getSettings()` in
`startStream`; each field may be absent. -/
structure HardwareValues where
  focusMode : Option FocusMode := none
  focusDistance : Option ℚ := none
  zoom : Option ℚ := none
  brightness : Option ℚ := none
  contrast : Option ℚ := none
deriving Repr, DecidableEq

/-- JavaScript truthiness on an optional number: `undefined` and `0` are
falsy, so `x || y` skips both. -/
def truthy : Option ℚ → Option ℚ
  | none => none
  | some q => if q = 0 then none else some q

/-- One field of the reconciliation chain
`currentSettings.f || caps.f?.min || dflt` from the `setSettings` block
of `startStream` (src/App.tsx lines 82-94). -/
def reconcileField (hw : Option ℚ) (capMin : Option ℚ) (dflt : ℚ) : ℚ :=
  match truthy hw with
  | some v => v
  | none =>
    match truthy capMin with
    | some m => m
    | none => dflt

/-- The settings reconciliation performed by `setSettings(prev => ...)` in
`startStream` (src/App.tsx lines 82-94): the previous model is spread in
but every field is immediately overwritten by the
`hardware value || capability min || literal default` chain. -/
def reconcile (prev : CameraSettings) (caps : CameraCapabilities)
    (hw : HardwareValues) : CameraSettings :=
  { prev with
    focusMode := hw.focusMode.getD FocusMode.continuous
    focusDistance :=
      reconcileField hw.focusDistance (caps.focusDistance.map CapabilityRange.min) 0
    zoom := reconcileField hw.zoom (caps.zoom.map CapabilityRange.min) 1
    brightness :=
      reconcileField hw.brightness (caps.brightness.map CapabilityRange.min) 100
    contrast :=
      reconcileField hw.contrast (caps.contrast.map CapabilityRange.min) 100 }

/-- The four numeric fields of the settings model that carry a
capability range. -/
inductive NumField
  | focusDistance
  | zoom
  | brightness
  | contrast
deriving Repr, DecidableEq

/-- The capability range advertised for a numeric field. -/
def capRange (c : CameraCapabilities) : NumField → Option CapabilityRange
  | NumField.focusDistance => c.focusDistance
  | NumField.zoom => c.zoom
  | NumField.brightness => c.brightness
  | NumField.contrast => c.contrast

/-- The hardware-reported current value of a numeric field. -/
def hwNum (h : HardwareValues) : NumField → Option ℚ
  | NumField.focusDistance => h.focusDistance
  | NumField.zoom => h.zoom
  | NumField.brightness => h.brightness
  | NumField.contrast => h.contrast

/-- The value a settings model holds at a numeric field. -/
def numValue (s : CameraSettings) : NumField → ℚ
  | NumField.focusDistance => s.focusDistance
  | NumField.zoom => s.zoom
  | NumField.brightness => s.brightness
  | NumField.contrast => s.contrast

/-- The hard-coded literal default each numeric field falls back to in the
reconciliation chain (src/App.tsx lines 87-93). -/
def numDefault : NumField → ℚ
  | NumField.focusDistance => 0
  | NumField.zoom => 1
  | NumField.brightness => 100
  | NumField.contrast => 100

/-- The keys of the settings model, from `keyof CameraSettings` as used by
`updateSetting` in src/App.tsx. -/
inductive SettingKey
  | focusMode
  | focusDistance
  | zoom
  | brightness
  | contrast
deriving Repr, DecidableEq

/-- The type of the value stored under a settings key. -/
def SettingKey.Val : SettingKey → Type
  | SettingKey.focusMode => FocusMode
  | SettingKey.focusDistance => ℚ
  | SettingKey.zoom => ℚ
  | SettingKey.brightness => ℚ
  | SettingKey.contrast => ℚ

/-- The single-field functional update `prev => ({ ...prev, [key]: value })`
performed by `updateSetting` (src/App.tsx lines 128-131). -/
def setField (s : CameraSettings) : (k : SettingKey) → k.Val → CameraSettings
  | SettingKey.focusMode, v => { s with focusMode := v }
  | SettingKey.focusDistance, v => { s with focusDistance := v }
  | SettingKey.zoom, v => { s with zoom := v }
  | SettingKey.brightness, v => { s with brightness := v }
  | SettingKey.contrast, v => { s with contrast := v }

/-- Reading one field of the settings model. -/
def getField (s : CameraSettings) : (k : SettingKey) → k.Val
  | SettingKey.focusMode => s.focusMode
  | SettingKey.focusDistance => s.focusDistance
  | SettingKey.zoom => s.zoom
  | SettingKey.brightness => s.brightness
  | SettingKey.contrast => s.contrast

/-- A resolved capture stream: the id of the `getUserMedia` request that
produced it, the device it is bound to, and the ids of its media tracks. -/
structure MediaStream where
  reqId : ℕ
  deviceId : String
  tracks : List ℕ
deriving Repr, DecidableEq

/-- Observable actions of the stream lifecycle, in the order the code
performs them. -/
inductive LifeEvent
  | stopTrack (t : ℕ)
  | request (r : ℕ) (d : String)
  | installed (r : ℕ) (d : String)
  | failed (r : ℕ)
deriving Repr, DecidableEq

/-- The error message set when `getUserMedia` rejects in `startStream`
(src/App.tsx line 99). -/
def streamErrorMsg : String :=
  "Failed to start video stream. The camera might be in use by another app."

/-- The session state touched by `startStream` (src/App.tsx lines 51-113):
the held stream reference, the in-flight `getUserMedia` requests, the
settings and capabilities state, plus bookkeeping (all streams the
hardware ever produced, all stopped track ids, an event log) that lets
properties about teardown ordering and stream leakage be stated. -/
structure StreamState where
  nextReq : ℕ
  pending : List (ℕ × String)
  streamRef : Option MediaStream
  settings : CameraSettings
  capabilities : CameraCapabilities
  error : Option String
  produced : List MediaStream
  stoppedTracks : List ℕ
  events : List LifeEvent
deriving Repr, DecidableEq

/-- The session state at mount time. -/
def initState : StreamState :=
  { nextReq := 0
    pending := []
    streamRef := none
    settings := initialSettings
    capabilities := {}
    error := none
    produced := []
    stoppedTracks := []
    events := [] }

/-- The device id of an in-flight request, if the request is still
pending. -/
def findPending (pending : List (ℕ × String)) (r : ℕ) : Option String :=
  (pending.find? (fun p => p.1 == r)).map (fun p => p.2)

/-- One asynchronous turn of the stream lifecycle: either an invocation of
`startStream`, or the arrival (chosen by the environment, in any order) of
the success or failure result of an in-flight `getUserMedia` request. On
success the environment also supplies the track ids of the produced
stream, the capabilities the track advertises, and its current values. -/
inductive StreamStep
  | openStream (d : String)
  | resolveOk (r : ℕ) (tracks : List ℕ) (caps : CameraCapabilities) (hw : HardwareValues)
  | resolveErr (r : ℕ)
deriving Repr, DecidableEq

/-- One asynchronous turn of the stream lifecycle. `openStream d` is an
invocation of `startStream` with `selectedDeviceId = d` up to its `await`
(src/App.tsx lines 51-68): it returns early on an empty device id, stops
every track of the held stream, and issues a `getUserMedia` request.
`resolveOk r tracks caps hw` is the continuation after request `r`
resolves (lines 70-96): the code installs the stream into `streamRef`,
stores the capabilities, reconciles the settings and clears the error —
with no check that `r` is still the newest request. `resolveErr r` is the
catch branch (lines 98-101): it sets the stream error message. -/
def step (s : StreamState) : StreamStep → StreamState
  | StreamStep.openStream d =>
    if d = "" then s
    else
      match s.streamRef with
      | some held =>
        { s with
          stoppedTracks := s.stoppedTracks ++ held.tracks
          pending := s.pending ++ [(s.nextReq, d)]
          nextReq := s.nextReq + 1
          events := s.events ++ held.tracks.map LifeEvent.stopTrack
                      ++ [LifeEvent.request s.nextReq d] }
      | none =>
        { s with
          pending := s.pending ++ [(s.nextReq, d)]
          nextReq := s.nextReq + 1
          events := s.events ++ [LifeEvent.request s.nextReq d] }
  | StreamStep.resolveOk r tracks caps hw =>
    match findPending s.pending r with
    | none => s
    | some d =>
      let st : MediaStream := ⟨r, d, tracks⟩
      { s with
        pending := s.pending.filter (fun p => p.1 != r)
        streamRef := some st
        capabilities := caps
        settings := reconcile s.settings caps hw
        error := none
        produced := s.produced ++ [st]
        events := s.events ++ [LifeEvent.installed r d] }
  | StreamStep.resolveErr r =>
    match findPending s.pending r with
    | none => s
    | some _ =>
      { s with
        pending := s.pending.filter (fun p => p.1 != r)
        error := some streamErrorMsg
        events := s.events ++ [LifeEvent.failed r] }

/-- Running a sequence of lifecycle turns from a state. -/
def runLifecycle (s : StreamState) (steps : List StreamStep) : StreamState :=
  steps.foldl step s

/-- The streams produced by the hardware that still have at least one
unstopped track. -/
def liveStreams (s : StreamState) : List MediaStream :=
  s.produced.filter (fun st => st.tracks.any (fun t => !(s.stoppedTracks.contains t)))

/-- Outcome of `applyConstraint` (src/App.tsx lines 116-126) as seen by its
caller: an early return when no stream is held, a successful application,
or a caught rejection reported as a console warning. There is no
constructor for a propagated exception because the `try`/`catch` makes the
function total. -/
inductive ApplyOutcome
  | noStream
  | applied
  | warned (reason : String)
deriving Repr, DecidableEq

/-- The hardware side of `track.applyConstraints`: accepts or rejects the
requested value. Rejection is a thrown error, modelled as `Except.error`. -/
def applyConstraintsHw (accepts : Bool) : Except String Unit :=
  if accepts then Except.ok () else Except.error "OverconstrainedError"

/-- `applyConstraint` (src/App.tsx lines 116-126): returns early when no
stream is held, otherwise calls `track.applyConstraints` inside
`try`/`catch`; a rejection is absorbed into a warning. It never stops a
track, never issues a request, and never touches the settings model. -/
def applyConstraint (s : StreamState) (accepts : Bool) :
    StreamState × ApplyOutcome :=
  match s.streamRef with
  | none => (s, ApplyOutcome.noStream)
  | some _ =>
    match applyConstraintsHw accepts with
    | Except.ok _ => (s, ApplyOutcome.applied)
    | Except.error e => (s, ApplyOutcome.warned e)

/-- `updateSetting` (src/App.tsx lines 128-131): optimistically writes the
requested value into the settings model, then pushes the single-field
constraint to the live stream. -/
def updateSetting (s : StreamState) (k : SettingKey) (v : k.Val)
    (accepts : Bool) : StreamState × ApplyOutcome :=
  applyConstraint { s with settings := setField s.settings k v } accepts

/-- A device as reported by the host `enumerateDevices` call. -/
structure HostDevice where
  deviceId : String
  label : String
  kind : String
deriving Repr, DecidableEq

/-- A normalized camera entry, from `CameraDevice` in src/types.ts. -/
structure CameraDevice where
  deviceId : String
  label : String
deriving Repr, DecidableEq

/-- The label normalization in `getCameras` (src/App.tsx line 35):
`device.label || `Camera ${device.deviceId.slice(0, 5)}...`` — the empty
string is falsy in JavaScript. -/
def deviceLabel (d : HostDevice) : String :=
  if d.label = "" then "Camera " ++ d.deviceId.take 5 ++ "..." else d.label

/-- Mapping one host device to a camera entry (src/App.tsx lines 33-36). -/
def toCameraDevice (d : HostDevice) : CameraDevice :=
  ⟨d.deviceId, deviceLabel d⟩

/-- The state touched by `getCameras`: the device list, the current
selection, and the error banner. -/
structure EnumState where
  devices : List CameraDevice
  selectedDeviceId : String
  error : Option String
deriving Repr, DecidableEq

/-- The error message set when the permission request rejects in
`getCameras` (src/App.tsx line 42). -/
def permissionErrorMsg : String :=
  "Failed to access camera permissions. Please allow camera access."

/-- `getCameras` (src/App.tsx lines 27-44). The host environment is
summarized by whether the leading `getUserMedia` permission request
succeeds and by the device inventory `enumerateDevices` returns. On
success the list is filtered to `videoinput` entries, normalized, and
stored; the first device is selected when nothing is selected yet. On
refusal the `catch` sets the permission error message and touches nothing
else — in particular the previously stored device list is kept. -/
def getCameras (st : EnumState) (permission : Bool)
    (inventory : List HostDevice) : EnumState :=
  if permission then
    let videoDevices := (inventory.filter (fun d => d.kind == "videoinput")).map
      toCameraDevice
    let st1 := { st with devices := videoDevices }
    match videoDevices with
    | [] => st1
    | d0 :: _ =>
      if st.selectedDeviceId = "" then { st1 with selectedDeviceId := d0.deviceId }
      else st1
  else { st with error := some permissionErrorMsg }

/-- Target platforms, from the `OS` enum in src/types.ts. -/
inductive TargetOS
  | windows
  | linux
  | macos
deriving Repr, DecidableEq

/-- Script flavors, from `ScriptType` in src/types.ts. -/
inductive ScriptFlavor
  | nativeShell
  | python
deriving Repr, DecidableEq

/-- Request payload of the script generator, from
`ScriptGenerationParams` in src/types.ts. -/
structure ScriptGenerationParams where
  os : TargetOS
  cameraName : String
  settings : CameraSettings
  scriptType : ScriptFlavor
deriving Repr, DecidableEq

/-- The message of the error thrown by `generateSystemScript` when no API
key is configured (src/services/geminiService.ts line 9), verbatim. -/
def missingKeyMsg : String :=
  "API Key is missing. Please set the API_KEY environment variable in your deployment settings."

/-- `generateSystemScript` (src/services/geminiService.ts): when the
credential is falsy (`undefined` or the empty string) it throws the
missing-key error before the client is even constructed; otherwise it
builds the prompt and calls the external generation service — modelled as
a parameter, since its behavior is outside this repository — and re-throws
any service failure to the caller. The second component counts how many
external service calls were made. -/
def generateSystemScript (apiKey : Option String)
    (service : ScriptGenerationParams → Except String String)
    (params : ScriptGenerationParams) : Except String String × ℕ :=
  match apiKey with
  | none => (Except.error missingKeyMsg, 0)
  | some k =>
    if k = "" then (Except.error missingKeyMsg, 0)
    else
      match service params with
      | Except.ok text => (Except.ok text, 1)
      | Except.error e => (Except.error e, 1)

/-! ## Helper lemmas -/

/-- Reading back the field just written by `setField`. -/
theorem getField_setField (s : CameraSettings) (k : SettingKey) (v : k.Val) :
    getField (setField s k v) k = v := by
  cases k <;> rfl

/-- The numeric fields of the reconciled model are exactly the
`hardware value || capability min || literal default` chain. -/
theorem reconcile_numValue (p : CameraSettings) (c : CameraCapabilities)
    (h : HardwareValues) (f : NumField) :
    numValue (reconcile p c h) f =
      reconcileField (hwNum h f) ((capRange c f).map CapabilityRange.min)
        (numDefault f) := by
  cases f <;> rfl

/-- With permission granted, the stored device list is the normalized
video-input portion of the host inventory, whichever selection branch is
taken. -/
theorem getCameras_granted_devices (st : EnumState) (inventory : List HostDevice) :
    (getCameras st true inventory).devices =
      (inventory.filter (fun d => d.kind == "videoinput")).map toCameraDevice := by
  unfold getCameras
  set l := (inventory.filter (fun d => d.kind == "videoinput")).map toCameraDevice
    with hl
  cases l with
  | nil => rfl
  | cons a tl =>
    by_cases hsel : st.selectedDeviceId = "" <;> simp [hsel]

/-- The normalized label is never the empty string. -/
theorem deviceLabel_ne_empty (d : HostDevice) : deviceLabel d ≠ "" := by
  unfold deviceLabel
  split
  · intro hcon
    have h2 := congrArg String.length hcon
    simp [String.length_append] at h2
    exact absurd h2.1.1 (by decide)
  · next hne => exact hne


/-! ## Claim theorems -/

/-- Claim C1 (code bug, evaluation at the failing trace): `startStream`
has no request-sequence guard, so after `open("a")` followed by
`open("b")` — both issued before either result arrives — a late arrival
of the stale `"a"` result overwrites the stream handle and settings that
the newer `"b"` result had installed: the final held stream is bound to
device `"a"`, not `"b"`, and the settings carry the stale hardware
values (zoom 2 from the stale result instead of 3 from the newer one). -/
theorem staleOpenResult_clobbers_newer :
    ((runLifecycle initState
        [StreamStep.openStream "a", StreamStep.openStream "b",
         StreamStep.resolveOk 1 [10] {} { zoom := some 3 },
         StreamStep.resolveOk 0 [11] {} { zoom := some 2 }]).streamRef.map
      MediaStream.deviceId) = some "a" ∧
    (runLifecycle initState
        [StreamStep.openStream "a", StreamStep.openStream "b",
         StreamStep.resolveOk 1 [10] {} { zoom := some 3 },
         StreamStep.resolveOk 0 [11] {} { zoom := some 2 }]).settings.zoom = 2 := by
  decide

/-- Claim C7 (counterexample to the claimed consequence): two opens issued
back to back with results arriving out of order leave two produced
streams, neither of which ever has a track stopped — so two live stream
handles exist at once. -/
theorem two_live_streams_cex :
    (liveStreams (runLifecycle initState
        [StreamStep.openStream "x", StreamStep.openStream "y",
         StreamStep.resolveOk 1 [20] {} {},
         StreamStep.resolveOk 0 [21] {} {}])).length = 2 := by
  decide

/-- Claim C7 (amended): within one `startStream` invocation made while a
stream is held, every track of the held stream is stopped strictly before
the new capture stream is requested: the emitted event log is the stop of
each held track followed by the request, and each held track is recorded
as stopped in the resulting state. -/
theorem openStream_stops_held_first (s : StreamState) (held : MediaStream)
    (d : String) (hs : s.streamRef = some held) (hd : d ≠ "") :
    (step s (StreamStep.openStream d)).events =
      s.events ++ held.tracks.map LifeEvent.stopTrack
        ++ [LifeEvent.request s.nextReq d] ∧
    ∀ t ∈ held.tracks, t ∈ (step s (StreamStep.openStream d)).stoppedTracks := by
  simp only [step, if_neg hd, hs]
  exact ⟨by simp, fun t ht => by simp [ht]⟩

/-- Witness for the amended C7 theorem at a concrete held stream. -/
theorem openStream_stops_held_first_witness :
    5 ∈ (step { initState with streamRef := some ⟨0, "a", [5, 6]⟩, nextReq := 1 }
        (StreamStep.openStream "b")).stoppedTracks :=
  (openStream_stops_held_first
      { initState with streamRef := some ⟨0, "a", [5, 6]⟩, nextReq := 1 }
      ⟨0, "a", [5, 6]⟩ "b" rfl (by decide)).2 5 (by decide)

/-- Claim C2 (counterexample): with an advertised zoom range [1, 5] and a
hardware-reported current zoom of 10, reconciliation adopts 10 verbatim —
the claimed range invariant does not hold for hardware-reported values. -/
theorem reconcile_range_violation_cex :
    capRange { zoom := some ⟨1, 5, 1⟩ } NumField.zoom = some ⟨1, 5, 1⟩ ∧
    numValue (reconcile initialSettings { zoom := some ⟨1, 5, 1⟩ }
        { zoom := some 10 }) NumField.zoom = 10 ∧
    ¬ numValue (reconcile initialSettings { zoom := some ⟨1, 5, 1⟩ }
        { zoom := some 10 }) NumField.zoom ≤ (5 : ℚ) := by
  decide

/-- Claim C2 (amended): for a field whose range is advertised, whose
hardware value is absent (or 0, which the code treats as absent), and
whose advertised minimum is nonzero, reconciliation picks the advertised
minimum, which lies within [min, max] whenever min ≤ max. -/
theorem reconcile_minFallback_in_range (p : CameraSettings)
    (c : CameraCapabilities) (h : HardwareValues) (f : NumField)
    (r : CapabilityRange) (hc : capRange c f = some r)
    (hh : truthy (hwNum h f) = none) (h0 : r.min ≠ 0) (hle : r.min ≤ r.max) :
    r.min ≤ numValue (reconcile p c h) f ∧
    numValue (reconcile p c h) f ≤ r.max := by
  have hv : numValue (reconcile p c h) f = r.min := by
    rw [reconcile_numValue, hc]
    unfold reconcileField
    rw [hh]
    simp [truthy, h0]
  rw [hv]
  exact ⟨le_refl _, hle⟩

/-- Witness for the amended C2 theorem at a concrete capability set. -/
theorem reconcile_minFallback_in_range_witness :
    (2 : ℚ) ≤ numValue (reconcile initialSettings { zoom := some ⟨2, 5, 1⟩ } {})
        NumField.zoom ∧
    numValue (reconcile initialSettings { zoom := some ⟨2, 5, 1⟩ } {})
        NumField.zoom ≤ (5 : ℚ) :=
  reconcile_minFallback_in_range initialSettings { zoom := some ⟨2, 5, 1⟩ } {}
    NumField.zoom ⟨2, 5, 1⟩ rfl rfl (by norm_num) (by norm_num)

/-- Claim C3 (counterexample): with no contrast range and no
hardware-reported contrast, reconciliation sets contrast to the
hard-coded literal 100, not to the prior in-memory value 55. -/
theorem reconcile_ignores_prior_cex :
    ({ initialSettings with contrast := 55 } : CameraSettings).contrast = 55 ∧
    capRange {} NumField.contrast = none ∧
    hwNum {} NumField.contrast = none ∧
    (reconcile { initialSettings with contrast := 55 } {} {}).contrast = 100 := by
  decide

/-- Claim C3 (amended): when a numeric field has no capability range and
no hardware-reported value, reconciliation falls back to the hard-coded
session default of that field (focusDistance 0, zoom 1, brightness 100,
contrast 100) — the prior in-memory value is spread in but overwritten. -/
theorem reconcile_default_fallback (p : CameraSettings)
    (c : CameraCapabilities) (h : HardwareValues) (f : NumField)
    (hc : capRange c f = none) (hh : hwNum h f = none) :
    numValue (reconcile p c h) f = numDefault f := by
  rw [reconcile_numValue, hc, hh]
  rfl

/-- Witness for the amended C3 theorem: a prior contrast of 55 is replaced
by the default 100. -/
theorem reconcile_default_fallback_witness :
    numValue (reconcile { initialSettings with contrast := 55 } {} {})
      NumField.contrast = numDefault NumField.contrast :=
  reconcile_default_fallback { initialSettings with contrast := 55 } {} {}
    NumField.contrast rfl rfl

/-- Claim C4: a single-field update whose value the hardware rejects is
absorbed by the `try`/`catch` of `applyConstraint` — the caller sees a
warning outcome, never a propagated exception; the settings model keeps
the requested value at the updated field; the stream reference, the set
of stopped tracks, the in-flight requests and the event log are all
untouched, so the stream stays active and no new stream is requested. -/
theorem rejected_constraint_absorbed (s : StreamState) (held : MediaStream)
    (k : SettingKey) (v : k.Val) (hs : s.streamRef = some held) :
    getField (updateSetting s k v false).1.settings k = v ∧
    (updateSetting s k v false).1.streamRef = s.streamRef ∧
    (updateSetting s k v false).1.stoppedTracks = s.stoppedTracks ∧
    (updateSetting s k v false).1.pending = s.pending ∧
    (updateSetting s k v false).1.events = s.events ∧
    (updateSetting s k v false).2 = ApplyOutcome.warned "OverconstrainedError" := by
  unfold updateSetting applyConstraint applyConstraintsHw
  simp only [hs]
  exact ⟨getField_setField s.settings k v, rfl, rfl, rfl, rfl, rfl⟩

/-- Witness for C4 at a concrete session holding one stream. -/
theorem rejected_constraint_absorbed_witness :
    getField (updateSetting { initState with streamRef := some ⟨0, "a", [1]⟩ }
        SettingKey.zoom (3 : ℚ) false).1.settings SettingKey.zoom = (3 : ℚ) ∧
    (updateSetting { initState with streamRef := some ⟨0, "a", [1]⟩ }
        SettingKey.zoom (3 : ℚ) false).2
      = ApplyOutcome.warned "OverconstrainedError" :=
  ⟨(rejected_constraint_absorbed { initState with streamRef := some ⟨0, "a", [1]⟩ }
      ⟨0, "a", [1]⟩ SettingKey.zoom (3 : ℚ) rfl).1,
   (rejected_constraint_absorbed { initState with streamRef := some ⟨0, "a", [1]⟩ }
      ⟨0, "a", [1]⟩ SettingKey.zoom (3 : ℚ) rfl).2.2.2.2.2⟩

/-- Claim C5 (counterexample): when permission is refused on a refresh,
the previously enumerated device list is retained, not emptied — only the
error banner is set. -/
theorem getCameras_denied_retains_cex :
    (getCameras ⟨[⟨"a", "Cam A"⟩], "a", none⟩ false []).devices ≠ [] ∧
    (getCameras ⟨[⟨"a", "Cam A"⟩], "a", none⟩ false []).devices
      = [⟨"a", "Cam A"⟩] ∧
    (getCameras ⟨[⟨"a", "Cam A"⟩], "a", none⟩ false []).error
      = some permissionErrorMsg := by
  decide

/-- Claim C5 (amended): a refused permission request sets the
permission-specific error message and leaves the device list and the
selection exactly as they were — in particular the list stays empty on a
first call, but entries from an earlier successful enumeration are kept. -/
theorem getCameras_denied_behavior (st : EnumState)
    (inventory : List HostDevice) :
    (getCameras st false inventory).error = some permissionErrorMsg ∧
    (getCameras st false inventory).devices = st.devices ∧
    (getCameras st false inventory).selectedDeviceId = st.selectedDeviceId :=
  ⟨rfl, rfl, rfl⟩

/-- Claim C6: with a falsy credential (absent or the empty string) the
call fails with the missing-credential message verbatim and performs zero
external service calls; with a credential present, a failing external
call is surfaced to the caller as that same error. -/
theorem generateSystemScript_credential_errors
    (service : ScriptGenerationParams → Except String String)
    (params : ScriptGenerationParams) :
    (∀ key : Option String, key = none ∨ key = some "" →
      generateSystemScript key service params = (Except.error missingKeyMsg, 0)) ∧
    (∀ k e, k ≠ "" → service params = Except.error e →
      generateSystemScript (some k) service params = (Except.error e, 1)) := by
  constructor
  · rintro key (rfl | rfl)
    · rfl
    · rfl
  · intro k e hk hs
    simp only [generateSystemScript]
    rw [if_neg hk, hs]

/-- Witness for C6 at concrete credentials and services. -/
theorem generateSystemScript_credential_errors_witness :
    generateSystemScript none (fun _ => Except.ok "script")
        ⟨TargetOS.windows, "Cam", initialSettings, ScriptFlavor.nativeShell⟩
      = (Except.error missingKeyMsg, 0) ∧
    generateSystemScript (some "key") (fun _ => Except.error "boom")
        ⟨TargetOS.windows, "Cam", initialSettings, ScriptFlavor.nativeShell⟩
      = (Except.error "boom", 1) :=
  ⟨(generateSystemScript_credential_errors (fun _ => Except.ok "script")
      ⟨TargetOS.windows, "Cam", initialSettings, ScriptFlavor.nativeShell⟩).1
      none (Or.inl rfl),
   (generateSystemScript_credential_errors (fun _ => Except.error "boom")
      ⟨TargetOS.windows, "Cam", initialSettings, ScriptFlavor.nativeShell⟩).2
      "key" "boom" (by decide) rfl⟩

/-- Claim C8: reconciliation is a pure function of its three inputs — two
runs on equal prior settings, equal capabilities and equal hardware
values produce equal settings models. -/
theorem reconcile_deterministic (p1 p2 : CameraSettings)
    (c1 c2 : CameraCapabilities) (h1 h2 : HardwareValues)
    (hp : p1 = p2) (hc : c1 = c2) (hh : h1 = h2) :
    reconcile p1 c1 h1 = reconcile p2 c2 h2 := by
  rw [hp, hc, hh]

/-- Witness for C8 at concrete equal inputs. -/
theorem reconcile_deterministic_witness :
    reconcile initialSettings {} {} = reconcile initialSettings {} {} :=
  reconcile_deterministic initialSettings initialSettings {} {} {} {}
    rfl rfl rfl

/-- Claim C9: the single-field update of `updateSetting` stores the
requested value at the updated key and leaves every other field of the
settings model unchanged. -/
theorem setField_frame (s : CameraSettings) (k : SettingKey) (v : k.Val) :
    getField (setField s k v) k = v ∧
    ∀ k2 : SettingKey, k2 ≠ k → getField (setField s k v) k2 = getField s k2 := by
  refine ⟨getField_setField s k v, ?_⟩
  intro k2 hne
  cases k <;> cases k2 <;> first | rfl | exact absurd rfl hne

/-- Witness for C9: updating zoom stores the new zoom and does not touch
brightness. -/
theorem setField_frame_witness :
    getField (setField initialSettings SettingKey.zoom (3 : ℚ)) SettingKey.zoom
      = (3 : ℚ) ∧
    getField (setField initialSettings SettingKey.zoom (3 : ℚ))
        SettingKey.brightness = getField initialSettings SettingKey.brightness :=
  ⟨(setField_frame initialSettings SettingKey.zoom (3 : ℚ)).1,
   (setField_frame initialSettings SettingKey.zoom (3 : ℚ)).2 SettingKey.brightness
     (by decide)⟩

/-- Claim C10: every camera entry produced by a successful enumeration
stems from a host device of kind `videoinput`; its label is never empty:
it is the host label when that is non-empty, and otherwise the string
`Camera ` followed by the first five characters of the device id and
`...`. -/
theorem getCameras_label_shape (st : EnumState) (inventory : List HostDevice)
    (d : CameraDevice) (hd : d ∈ (getCameras st true inventory).devices) :
    d.label ≠ "" ∧
    ∃ hdev ∈ inventory, hdev.kind = "videoinput" ∧ d.deviceId = hdev.deviceId ∧
      (hdev.label = "" → d.label = "Camera " ++ hdev.deviceId.take 5 ++ "...") ∧
      (hdev.label ≠ "" → d.label = hdev.label) := by
  rw [getCameras_granted_devices] at hd
  rcases List.mem_map.mp hd with ⟨hdev, hmem, rfl⟩
  rcases List.mem_filter.mp hmem with ⟨hinv, hkind⟩
  refine ⟨deviceLabel_ne_empty hdev, hdev, hinv, by simpa using hkind, rfl, ?_, ?_⟩
  · intro hl
    show deviceLabel hdev = _
    rw [deviceLabel, if_pos hl]
  · intro hl
    show deviceLabel hdev = _
    rw [deviceLabel, if_neg hl]

/-- Witness for C10 at a one-element inventory whose label is empty. -/
theorem getCameras_label_shape_witness :
    ((⟨"abcdefgh", "Camera abcde..."⟩ : CameraDevice).label ≠ "") ∧
    ∃ hdev ∈ [(⟨"abcdefgh", "", "videoinput"⟩ : HostDevice)],
      hdev.kind = "videoinput" ∧
      (⟨"abcdefgh", "Camera abcde..."⟩ : CameraDevice).deviceId = hdev.deviceId ∧
      (hdev.label = "" →
        (⟨"abcdefgh", "Camera abcde..."⟩ : CameraDevice).label
          = "Camera " ++ hdev.deviceId.take 5 ++ "...") ∧
      (hdev.label ≠ "" →
        (⟨"abcdefgh", "Camera abcde..."⟩ : CameraDevice).label = hdev.label) :=
  getCameras_label_shape ⟨[], "", none⟩ [⟨"abcdefgh", "", "videoinput"⟩]
    ⟨"abcdefgh", "Camera abcde..."⟩ (by decide)
